import Mathlib

/-!
Verification of the braviaproapi request/response protocol layer.

This file gives a shallow embedding, in Lean 4, of the core of the
braviaproapi Python library: the HTTP JSON-RPC transport
(braviaproapi/bravia/http.py), the vendor error-code mapper
(braviaproapi/bravia/errors/errorhandling.py), the encrypted text channel
(braviaproapi/bravia/encryption.py), the client session initializer
(braviaproapi/braviaclient.py) and the text-form facade methods
(braviaproapi/bravia/appcontrol.py).  Pure fragments of the Python code
become Lean functions; Python exceptions become an explicit error type
carried in Except; network I/O is modelled by passing the network outcome
as an explicit argument.  External library behaviour (the json module,
pycryptodome primitives, base64, UTF-8 codecs, packaging.version) is
modelled directly from those libraries' documented semantics, restricted
to the value shapes this client can actually produce; the AES and RSA
block primitives themselves are parameters of the relevant definitions.
-/

/-- Decoded JSON values, as produced by requests.Response.json. -/
inductive Json where
  | null : Json
  | bool : Bool → Json
  | num : Int → Json
  | str : String → Json
  | arr : List Json → Json
  | obj : List (String × Json) → Json

/-- Python exception values reachable in the modelled code paths.
httpError models braviaproapi's HttpError (message plus optional vendor
code); apiError and its subclasses model the classes in
bravia/errors/apierror.py; valueError, typeError, attributeError,
unboundLocalError and unicodeDecodeError model the corresponding Python
built-in exceptions. -/
inductive PyErr where
  | httpError : String → Option Int → PyErr
  | apiError : String → PyErr
  | encryptionError : String → PyErr
  | internalError : String → PyErr
  | noFocusedTextFieldError : String → PyErr
  | appLaunchError : String → PyErr
  | valueError : String → PyErr
  | typeError : String → PyErr
  | attributeError : String → PyErr
  | unboundLocalError : String → PyErr
  | unicodeDecodeError : String → PyErr
  | indexError : String → PyErr
  | keyError : String → PyErr

/-- Python repr() of a decoded JSON value (string escaping elided; only
used for values nested inside lists/dicts when str() renders them). -/
def pyRepr : Json → String
  | .null => "None"
  | .bool true => "True"
  | .bool false => "False"
  | .num n => toString n
  | .str s => "\x27" ++ s ++ "\x27"
  | .arr xs => "[" ++ String.intercalate ", " (xs.attach.map fun x => pyRepr x.1) ++ "]"
  | .obj kvs =>
      "\x7b" ++
        String.intercalate ", "
          (kvs.attach.map fun kv => "\x27" ++ kv.1.1 ++ "\x27: " ++ pyRepr kv.1.2) ++
      "\x7d"
termination_by v => sizeOf v
decreasing_by
  all_goals simp_wf
  · have := List.sizeOf_lt_of_mem x.2
    omega
  · obtain ⟨⟨k, w⟩, hmem⟩ := kv
    have := List.sizeOf_lt_of_mem hmem
    simp only [Prod.mk.sizeOf_spec] at this
    show sizeOf w < 1 + sizeOf kvs
    omega

/-- Python str() of a decoded JSON value, as used by str.format. -/
def pyStr : Json → String
  | .null => "None"
  | .bool true => "True"
  | .bool false => "False"
  | .num n => toString n
  | .str s => s
  | v => pyRepr v

/-- Dict lookup: Python d.get(key) or d[key] after a containment check.
JSON decoding cannot yield duplicate keys, so first-match is exact. -/
def dictGet (kvs : List (String × Json)) (key : String) : Option Json :=
  (kvs.find? fun kv => kv.1 = key).map fun kv => kv.2

/-- Python membership test: key in response, for a decoded JSON value.
For dicts it tests keys; for lists, element equality (a string needle only
equals string elements); for strings, substring containment; other values
raise TypeError. -/
def pyContains (v : Json) (needle : String) : Except PyErr Bool :=
  match v with
  | .obj kvs => .ok (kvs.any fun kv => kv.1 = needle)
  | .arr xs => .ok (xs.any fun x => match x with | .str s => s = needle | _ => false)
  | .str s =>
      .ok ((List.range (s.length + 1)).any fun i => needle.data.isPrefixOf (s.data.drop i))
  | _ => .error (.typeError "argument is not iterable")

/-- Python subscription v[i] with a non-negative integer index. -/
def pyGetIdx (v : Json) (i : Nat) : Except PyErr Json :=
  match v with
  | .arr xs =>
      match xs.get? i with
      | some x => .ok x
      | none => .error (.indexError "list index out of range")
  | .str s =>
      match s.data.get? i with
      | some c => .ok (.str (String.mk [c]))
      | none => .error (.indexError "string index out of range")
  | _ => .error (.typeError "object is not subscriptable")

/-! ## Http.request (braviaproapi/bravia/http.py)

The network exchange itself is modelled by a NetOutcome value: what the
requests.post call produced.  A decoded body is Option Json, where none
means the body was not valid JSON (result.json() raised ValueError). -/

/-- Outcome of the requests.post call inside Http.request. -/
inductive NetOutcome where
  | timeout : NetOutcome
  | connectionError : String → NetOutcome
  | response : Nat → Option Json → NetOutcome

/-- The JSON-RPC payload built by Http.request (http.py lines 53-58). -/
structure Payload where
  method : String
  params : List Json
  version : String
  id : Nat

/-- Python subscription response[key] for a dict. -/
def pyGetKey (v : Json) (key : String) : Except PyErr Json :=
  match v with
  | .obj kvs =>
      match dictGet kvs key with
      | some x => .ok x
      | none => .error (.keyError key)
  | _ => .error (.typeError "object is not subscriptable")

/-- Lines 69-94 of http.py: processing of the HTTP response.  Status
check, JSON decode, error field extraction, result unwrapping.  The
except ValueError handler on line 75 references the local variable
response before it was ever assigned (the assignment on line 73 is what
failed), so Python raises UnboundLocalError there instead of the intended
HttpError.  The vendor error code stored on the HttpError is an integer
whenever the error pair carries a JSON integer code, which is the only
shape the protocol produces. -/
def processResponse (status : Nat) (body : Option Json) : Except PyErr (Option Json) :=
  if status ≠ 200 then
    .error (.httpError ("Unexpected status code " ++ toString status ++ " received") none)
  else
    match body with
    | none => .error (.unboundLocalError "response")
    | some response =>
      match pyContains response "error" with
      | .error e => .error e
      | .ok true =>
          match pyGetKey response "error" with
          | .error e => .error e
          | .ok err =>
            match pyGetIdx err 1 with
            | .error e => .error e
            | .ok e1 =>
              match pyGetIdx err 0 with
              | .error e => .error e
              | .ok e0 =>
                .error (.httpError (pyStr e1 ++ " (error " ++ pyStr e0 ++ ")")
                  (match e0 with | .num c => some c | _ => none))
      | .ok false =>
          match pyContains response "result" with
          | .error e => .error e
          | .ok false => .error (.httpError "The API response was malformed" none)
          | .ok true =>
            match pyGetKey response "result" with
            | .error e => .error e
            | .ok (.arr xs) =>
                if xs.length = 0 then .ok none
                else if xs.length > 1 then .ok (some (.arr xs))
                else
                  match pyGetIdx (.arr xs) 0 with
                  | .error e => .error e
                  | .ok x => .ok (some x)
            | .ok _ =>
                .error (.valueError
                  "The API response was in an unexpected format and cannot be processed.")

/-- One call to Http.request on an instance whose counter field holds
request_id.  Line 39 increments the counter before anything else; the
payload is then built with the new id, and the network outcome is
processed.  Returns the new counter value, the payload that was sent, and
the call result. -/
def httpRequest (request_id : Nat) (method : String) (params : Option Json)
    (version : String) (net : NetOutcome) :
    Nat × Payload × Except PyErr (Option Json) :=
  let rid := request_id + 1
  let request_params : List Json := match params with | none => [] | some p => [p]
  let payload : Payload := ⟨method, request_params, version, rid⟩
  let result : Except PyErr (Option Json) :=
    match net with
    | .timeout =>
        .error (.httpError
          "The request timed out. Is the device powered with the IP control interface enabled?" none)
    | .connectionError err =>
        .error (.httpError ("A connection error occurred: " ++ err) none)
    | .response status body => processResponse status body
  (rid, payload, result)

/-- Arguments of one Http.request call together with its network outcome. -/
structure CallSpec where
  method : String
  params : Option Json
  version : String
  net : NetOutcome

/-- The payloads sent by a sequence of Http.request calls on one instance,
starting from counter value request_id.  Every call advances the counter,
whether or not its outcome is an error. -/
def runCalls (request_id : Nat) : List CallSpec → List Payload
  | [] => []
  | c :: cs =>
      let r := httpRequest request_id c.method c.params c.version c.net
      r.2.1 :: runCalls r.1 cs

/-! ## Error mapper (braviaproapi/bravia/errors/errorhandling.py) -/

/-- The ErrorCode enum members. -/
inductive ErrorCode where
  | UNKNOWN
  | HTTP_UNAUTHORIZED | HTTP_FORBIDDEN | HTTP_NOT_FOUND | HTTP_ENTITY_TOO_LARGE
  | HTTP_URI_TOO_LONG | HTTP_NOT_IMPLEMENTED | HTTP_SERVICE_UNAVAILABLE
  | ANY | TIMEOUT | ILLEGAL_ARGUMENT | ILLEGAL_REQUEST | ILLEGAL_STATE
  | NO_SUCH_METHOD | UNSUPPORTED_VERSION | UNSUPPORTED_OPERATION
  | REQUEST_RETRY | CLIENT_OVER_MAXIMUM | ENCRYPTION_FAILED | REQUEST_DUPLICATED
  | MULTIPLE_SETTINGS_FAILED | DISPLAY_OFF | CONTACT_SUPPORT
  | PASSWORD_EXPIRED | AC_POWER_REQUIRED
  | SCREEN_CHANGE_IN_PROGRESS
  | TARGET_NOT_SUPPORTED | VOLUME_OUT_OF_RANGE
  | CONTENT_PROTECTED | CONTENT_DOES_NOT_EXIST | STORAGE_HAS_NO_CONTENT
  | SOME_CONTENT_NOT_DELETED | CHANNEL_FIXED_BY_USB_RECORDING
  | CHANNEL_FIXED_BY_SCART_RECORDING | CHAPTER_DOES_NOT_EXIST
  | CHANNEL_CANNOT_BE_DETERMINED | EMPTY_CHANNEL_LIST | STORAGE_DOES_NOT_EXIST
  | STORAGE_FULL | CONTENT_ATTRIBUTE_SETTING_FAILED | UNKNOWN_GROUP_ID
  | CONTENT_NOT_SUPPORTED
  | ANOTHER_REQUEST_IN_PROGRESS | FAILED_TO_LAUNCH | REQUEST_IN_PROGRESS
  | FAILED_TO_TERMINATE
  | KEY_DOES_NOT_EXIST
  deriving DecidableEq

/-- The integer value of each ErrorCode member. -/
def ErrorCode.val : ErrorCode → Int
  | .UNKNOWN => 0
  | .HTTP_UNAUTHORIZED => 401
  | .HTTP_FORBIDDEN => 403
  | .HTTP_NOT_FOUND => 404
  | .HTTP_ENTITY_TOO_LARGE => 413
  | .HTTP_URI_TOO_LONG => 414
  | .HTTP_NOT_IMPLEMENTED => 501
  | .HTTP_SERVICE_UNAVAILABLE => 503
  | .ANY => 1
  | .TIMEOUT => 2
  | .ILLEGAL_ARGUMENT => 3
  | .ILLEGAL_REQUEST => 5
  | .ILLEGAL_STATE => 7
  | .NO_SUCH_METHOD => 12
  | .UNSUPPORTED_VERSION => 14
  | .UNSUPPORTED_OPERATION => 15
  | .REQUEST_RETRY => 40000
  | .CLIENT_OVER_MAXIMUM => 40001
  | .ENCRYPTION_FAILED => 40002
  | .REQUEST_DUPLICATED => 40003
  | .MULTIPLE_SETTINGS_FAILED => 40004
  | .DISPLAY_OFF => 40005
  | .CONTACT_SUPPORT => 40006
  | .PASSWORD_EXPIRED => 40200
  | .AC_POWER_REQUIRED => 40201
  | .SCREEN_CHANGE_IN_PROGRESS => 40600
  | .TARGET_NOT_SUPPORTED => 40800
  | .VOLUME_OUT_OF_RANGE => 40801
  | .CONTENT_PROTECTED => 41000
  | .CONTENT_DOES_NOT_EXIST => 41001
  | .STORAGE_HAS_NO_CONTENT => 41002
  | .SOME_CONTENT_NOT_DELETED => 41003
  | .CHANNEL_FIXED_BY_USB_RECORDING => 41011
  | .CHANNEL_FIXED_BY_SCART_RECORDING => 41012
  | .CHAPTER_DOES_NOT_EXIST => 41013
  | .CHANNEL_CANNOT_BE_DETERMINED => 41014
  | .EMPTY_CHANNEL_LIST => 41015
  | .STORAGE_DOES_NOT_EXIST => 41020
  | .STORAGE_FULL => 41021
  | .CONTENT_ATTRIBUTE_SETTING_FAILED => 41022
  | .UNKNOWN_GROUP_ID => 41023
  | .CONTENT_NOT_SUPPORTED => 41024
  | .ANOTHER_REQUEST_IN_PROGRESS => 41400
  | .FAILED_TO_LAUNCH => 41401
  | .REQUEST_IN_PROGRESS => 41402
  | .FAILED_TO_TERMINATE => 41403
  | .KEY_DOES_NOT_EXIST => 42400

/-- Every enum member, in declaration order. -/
def ErrorCode.members : List ErrorCode :=
  [.UNKNOWN,
   .HTTP_UNAUTHORIZED, .HTTP_FORBIDDEN, .HTTP_NOT_FOUND, .HTTP_ENTITY_TOO_LARGE,
   .HTTP_URI_TOO_LONG, .HTTP_NOT_IMPLEMENTED, .HTTP_SERVICE_UNAVAILABLE,
   .ANY, .TIMEOUT, .ILLEGAL_ARGUMENT, .ILLEGAL_REQUEST, .ILLEGAL_STATE,
   .NO_SUCH_METHOD, .UNSUPPORTED_VERSION, .UNSUPPORTED_OPERATION,
   .REQUEST_RETRY, .CLIENT_OVER_MAXIMUM, .ENCRYPTION_FAILED, .REQUEST_DUPLICATED,
   .MULTIPLE_SETTINGS_FAILED, .DISPLAY_OFF, .CONTACT_SUPPORT,
   .PASSWORD_EXPIRED, .AC_POWER_REQUIRED,
   .SCREEN_CHANGE_IN_PROGRESS,
   .TARGET_NOT_SUPPORTED, .VOLUME_OUT_OF_RANGE,
   .CONTENT_PROTECTED, .CONTENT_DOES_NOT_EXIST, .STORAGE_HAS_NO_CONTENT,
   .SOME_CONTENT_NOT_DELETED, .CHANNEL_FIXED_BY_USB_RECORDING,
   .CHANNEL_FIXED_BY_SCART_RECORDING, .CHAPTER_DOES_NOT_EXIST,
   .CHANNEL_CANNOT_BE_DETERMINED, .EMPTY_CHANNEL_LIST, .STORAGE_DOES_NOT_EXIST,
   .STORAGE_FULL, .CONTENT_ATTRIBUTE_SETTING_FAILED, .UNKNOWN_GROUP_ID,
   .CONTENT_NOT_SUPPORTED,
   .ANOTHER_REQUEST_IN_PROGRESS, .FAILED_TO_LAUNCH, .REQUEST_IN_PROGRESS,
   .FAILED_TO_TERMINATE,
   .KEY_DOES_NOT_EXIST]

/-- Enum lookup by value: ErrorCode(v).  Python raises ValueError when v
is not the value of any member; that case is returned as none here. -/
def errorCodeOfVal (v : Int) : Option ErrorCode :=
  ErrorCode.members.find? fun e => e.val = v

/-- The error_messages dict (errorhandling.py lines 70-120). -/
def error_messages : ErrorCode → String
  | .UNKNOWN => "An unexpected error occurred: {0}"
  | .HTTP_UNAUTHORIZED => "This application is not authorized to access the device API"
  | .HTTP_FORBIDDEN => "The requested resource is forbidden"
  | .HTTP_NOT_FOUND => "The requested resource was not found"
  | .HTTP_ENTITY_TOO_LARGE => "The content of the request was too large"
  | .HTTP_URI_TOO_LONG => "The requested URI was too long"
  | .HTTP_NOT_IMPLEMENTED => "The requested resource is not implemented"
  | .HTTP_SERVICE_UNAVAILABLE => "The device API reports that it is not available"
  | .ANY => "A general error occurred: {0}"
  | .TIMEOUT => "A timeout occurred on the device"
  | .ILLEGAL_ARGUMENT => "One or more API parameters is invalid"
  | .ILLEGAL_REQUEST => "The API request is malformed, empty, or otherwise invalid"
  | .ILLEGAL_STATE => "The device is not in the correct state to process this request"
  | .NO_SUCH_METHOD => "The requested API resource is not available on this device"
  | .UNSUPPORTED_VERSION => "The requested API resource version is not available on this device"
  | .UNSUPPORTED_OPERATION => "The device cannot handle the request with the specified parameters"
  | .REQUEST_RETRY => "A long polling timeout occurred"
  | .CLIENT_OVER_MAXIMUM => "Too many long polling clients are currently connected"
  | .ENCRYPTION_FAILED => "The device was unable to encrypt its response, possibly due to an invalid key"
  | .REQUEST_DUPLICATED => "The previous request is still processing"
  | .MULTIPLE_SETTINGS_FAILED => "One or more settings could not be applied (but some may have been)"
  | .DISPLAY_OFF => "This request cannot be made while the device\x27s display is off"
  | .CONTACT_SUPPORT => "A general error occurred with message: {0}"
  | .PASSWORD_EXPIRED => "The password has expired"
  | .AC_POWER_REQUIRED => "The request cannot be processed because the device needs to be connected to AC power"
  | .SCREEN_CHANGE_IN_PROGRESS => "The device is currently changing the screen"
  | .TARGET_NOT_SUPPORTED => "The specified target is not supported or cannot be controlled"
  | .VOLUME_OUT_OF_RANGE => "The specified volume level is out of range for the device"
  | .CONTENT_PROTECTED => "The requested content is DRM protected and cannot be used"
  | .CONTENT_DOES_NOT_EXIST => "The requested content does not exist"
  | .STORAGE_HAS_NO_CONTENT => "The requested storage device contains no content"
  | .SOME_CONTENT_NOT_DELETED => "Some content could not be deleted as requested"
  | .CHANNEL_FIXED_BY_USB_RECORDING =>
      "The content cannot be changed because the channel is fixed by a USB recording device"
  | .CHANNEL_FIXED_BY_SCART_RECORDING =>
      "The content cannot be changed because the channel is fixed by a SCART recording device"
  | .CHAPTER_DOES_NOT_EXIST => "The requested chapter does not exist"
  | .CHANNEL_CANNOT_BE_DETERMINED => "The channel cannot be determined at this time"
  | .EMPTY_CHANNEL_LIST => "The channel list is empty"
  | .STORAGE_DOES_NOT_EXIST => "The storage device does not exist"
  | .STORAGE_FULL => "The storage device is full"
  | .CONTENT_ATTRIBUTE_SETTING_FAILED => "Setting an attribute on the content failed"
  | .UNKNOWN_GROUP_ID => "The specified group ID is unknown"
  | .CONTENT_NOT_SUPPORTED => "The specified content is not supported"
  | .ANOTHER_REQUEST_IN_PROGRESS => "Another request is already in progress"
  | .FAILED_TO_LAUNCH => "The specified app failed to launch"
  | .REQUEST_IN_PROGRESS => "The requested was accepted but the app\x27s launch may still be in progress"
  | .FAILED_TO_TERMINATE => "One or more apps failed to terminate"
  | .KEY_DOES_NOT_EXIST => "The device has not yet generated an encryption key"

/-- Replace the first occurrence of the three characters \x7b 0 \x7d by
arg.  Every template in the message table contains at most one
placeholder, so this is str.format restricted to those templates. -/
def replaceBrace0 (arg : String) : List Char → List Char
  | [] => []
  | a :: b :: c :: rest =>
      if a = Char.ofNat 123 ∧ b = Char.ofNat 48 ∧ c = Char.ofNat 125 then arg.data ++ rest
      else a :: replaceBrace0 arg (b :: c :: rest)
  | a :: rest => a :: replaceBrace0 arg rest

/-- str.format with one optional argument: the placeholder in the template
is replaced by str(additional_message), which is the string itself or None
rendered as "None". -/
def formatMessage (template : String) (additional_message : Option String) : String :=
  String.mk (replaceBrace0
    (match additional_message with | some s => s | none => "None") template.data)

/-- get_error_message (errorhandling.py lines 123-147).  The try block
calls ErrorCode(error_code); for an integer that is not a member value
Python raises ValueError, and the except clause only catches TypeError,
so that ValueError escapes the function. -/
def get_error_message (error_code : Option Int) (additional_message : Option String) :
    Except PyErr String :=
  match error_code with
  | none => .ok (formatMessage (error_messages .UNKNOWN) additional_message)
  | some v =>
      match errorCodeOfVal v with
      | some known => .ok (formatMessage (error_messages known) additional_message)
      | none => .error (.valueError (toString v ++ " is not a valid ErrorCode"))

/-! ## Session initializer (braviaproapi/braviaclient.py) -/

/-- Python truthiness of a decoded JSON value (util.py uses not input_string). -/
def pyFalsy : Json → Bool
  | .null => true
  | .bool b => !b
  | .num n => n = 0
  | .str s => s = ""
  | .arr xs => xs.isEmpty
  | .obj kvs => kvs.isEmpty

/-- coalesce_none_or_empty (braviaproapi/bravia/util.py): the input value,
or None when it is falsy. -/
def coalesce_none_or_empty (v : Option Json) : Option Json :=
  match v with
  | none => none
  | some x => if pyFalsy x then none else some x

/-- The dict built by System.get_interface_information (system.py lines
184-190). -/
structure InterfaceInfo where
  product_category : Option Json
  product_name : Option Json
  model_name : Option Json
  server_name : Option Json
  interface_version : Option Json

/-- System.get_interface_information (system.py lines 159-192), as a
function of the Http.request outcome.  An HttpError is converted to an
ApiError through get_error_message; str(err) is the HttpError message. -/
def get_interface_information (httpResult : Except PyErr (Option Json)) :
    Except PyErr InterfaceInfo :=
  match httpResult with
  | .error (.httpError m c) =>
      match get_error_message c (some m) with
      | .ok msg => .error (.apiError msg)
      | .error e => .error e
  | .error e => .error e
  | .ok (some (.obj kvs)) =>
      .ok ⟨coalesce_none_or_empty (dictGet kvs "productCategory"),
           coalesce_none_or_empty (dictGet kvs "productName"),
           coalesce_none_or_empty (dictGet kvs "modelName"),
           coalesce_none_or_empty (dictGet kvs "serverName"),
           coalesce_none_or_empty (dictGet kvs "interfaceVersion")⟩
  | .ok _ => .error (.attributeError "get")

/-- Modelled from packaging.version: split a version string on the dots.
Restricted to the plain dotted-numeric release strings this device
protocol uses (no epoch, pre, post, dev or local segments). -/
def splitDot : List Char → List (List Char)
  | [] => [[]]
  | c :: rest =>
      let r := splitDot rest
      if c = Char.ofNat 46 then [] :: r
      else
        match r with
        | h :: t => (c :: h) :: t
        | [] => [[c]]

/-- Decimal digits to a number; none when empty or non-digit. -/
def digitsToNat? (cs : List Char) : Option Nat :=
  if cs.isEmpty then none
  else
    cs.foldl
      (fun acc c =>
        match acc with
        | none => none
        | some n => if c.isDigit then some (n * 10 + (c.toNat - 48)) else none)
      (some 0)

/-- Modelled from packaging.version.parse, restricted to plain release
versions: the list of numeric components, or none when the string is not
a plain dotted-numeric version (packaging raises InvalidVersion). -/
def parseRelease (s : String) : Option (List Nat) :=
  (splitDot s.data).mapM digitsToNat?

/-- Modelled from packaging.version comparison on release versions:
componentwise comparison, missing components reading as zero. -/
def verCmp : List Nat → List Nat → Ordering
  | a :: as, b :: bs =>
      if a < b then .lt else if b < a then .gt else verCmp as bs
  | [], bs => if bs.all (fun b => b = 0) then .eq else .lt
  | as, [] => if as.all (fun a => a = 0) then .eq else .gt

/-- BraviaClient.initialize (braviaclient.py lines 36-66) as a function of
the stored initialized flag and the interface-information call outcome.
Returns the new value of the flag; an error leaves the client
uninitialized.  The except HttpError clause of the source is kept even
though get_interface_information already converts HttpError to ApiError. -/
def ensureInitialized (initialized : Bool) (httpResult : Except PyErr (Option Json)) :
    Except PyErr Bool :=
  if initialized then .ok true
  else
    match get_interface_information httpResult with
    | .error (.httpError m _) =>
        .error (.apiError ("Unable to verify API version compatibility due to an API error: " ++ m))
    | .error e => .error e
    | .ok info =>
      match info.interface_version with
      | none =>
          .error (.apiError
            "Unable to verify API version compatibility because the device did not indicate its API version.")
      | some (.str v) =>
          match parseRelease v with
          | none => .error (.valueError ("Invalid version: " ++ v))
          | some ver =>
              if verCmp ver [4, 0, 0] ≠ .lt ∨ verCmp ver [3, 0, 0] = .lt then
                .error (.apiError
                  ("The target device is running an incompatible API version \x27" ++ v ++ "\x27"))
              else .ok true
      | some _ => .error (.typeError "expected string or bytes-like object")

/-! ## Text-form facade methods (braviaproapi/bravia/appcontrol.py) -/

/-- AppControl.get_text_form (appcontrol.py lines 133-176) as a function
of the wrapped session key availability, the Http.request outcome and the
decryption function.  Vendor codes 40003 (REQUEST_DUPLICATED) and 7
(ILLEGAL_STATE) return None; every other HttpError reaches the elif on
line 166, which reads the nonexistent enum member ErrorCode.ENCRYPTION_ERROR
and so raises AttributeError. -/
def get_text_form (encrypted_key : Option String) (httpResult : Except PyErr (Option Json))
    (decryptFn : String → Except PyErr String) : Except PyErr (Option String) :=
  match encrypted_key with
  | none =>
      .error (.encryptionError
        "This device does not support the appropriate encryption needed to access text fields.")
  | some _ =>
    match httpResult with
    | .error (.httpError _ c) =>
        if c = some 40003 ∨ c = some 7 then .ok none
        else .error (.attributeError "ENCRYPTION_ERROR")
    | .error e => .error e
    | .ok response =>
      let rj : Json := match response with | some r => r | none => .null
      match pyContains rj "text" with
      | .error e => .error e
      | .ok false => .error (.apiError "API returned unexpected response format for getTextForm")
      | .ok true =>
          match pyGetKey rj "text" with
          | .error e => .error e
          | .ok (.str t) => (decryptFn t).map some
          | .ok _ => .error (.typeError "message must be a str value")

/-- AppControl.set_text_form (appcontrol.py lines 242-287) as a function
of the text, the wrapped session key availability and the Http.request
outcome.  Vendor code 7 (ILLEGAL_STATE) raises NoFocusedTextFieldError;
40002 (ENCRYPTION_FAILED) raises InternalError; any other code goes
through get_error_message into ApiError. -/
def set_text_form (text : String) (encrypted_key : Option String)
    (httpResult : Except PyErr (Option Json)) : Except PyErr Unit :=
  match encrypted_key with
  | none =>
      .error (.encryptionError
        "This device does not support the appropriate encryption needed to access text fields.")
  | some _ =>
    match httpResult with
    | .error (.httpError m c) =>
        if c = some 7 then
          .error (.noFocusedTextFieldError
            "The target device does not currently have a writable text field focused.")
        else if c = some 40002 then
          .error (.internalError
            "Internal error: The target device rejected our encryption key. This is a bug.")
        else
          match get_error_message c (some m) with
          | .ok msg => .error (.apiError msg)
          | .error e => .error e
    | .error e => .error e
    | .ok _ => .ok ()

/-! ## Encryption channel (braviaproapi/bravia/encryption.py)

Bytes are Nats below 256.  The AES-128 block permutation and the RSA
encryption primitive from pycryptodome are parameters: the definitions
below model the mode-of-operation, padding and encoding layers that
encryption.py composes around them. -/

/-- Bytewise xor of two equal-length byte strings (the CBC chaining step
inside pycryptodome). -/
def xorBytes (a b : List Nat) : List Nat :=
  List.zipWith (fun x y => x ^^^ y) a b

/-- Crypto.Util.Padding.pad with block_size 16 and pkcs7 style: append
k copies of k, where k = 16 - len mod 16 (k = 16 on aligned input). -/
def pad (data : List Nat) : List Nat :=
  let padding_len := 16 - data.length % 16
  data ++ List.replicate padding_len padding_len

/-- Crypto.Util.Padding.unpad with block_size 16 and pkcs7 style.  The
ValueError messages are those raised by pycryptodome. -/
def unpad (data : List Nat) : Except PyErr (List Nat) :=
  if data.length = 0 then .error (.valueError "Zero-length input cannot be unpadded")
  else if data.length % 16 ≠ 0 then .error (.valueError "Input data is not padded")
  else
    let padding_len := data.getLastD 0
    if padding_len < 1 ∨ padding_len > 16 then .error (.valueError "Padding is incorrect.")
    else if data.drop (data.length - padding_len) ≠ List.replicate padding_len padding_len then
      .error (.valueError "PKCS#7 padding is incorrect.")
    else .ok (data.take (data.length - padding_len))

/-- Split a byte string into k blocks of 16 (k = length / 16). -/
def chunkBlocks : Nat → List Nat → List (List Nat)
  | 0, _ => []
  | k + 1, l => l.take 16 :: chunkBlocks k (l.drop 16)

/-- The 16-byte blocks of an aligned byte string. -/
def chunk16 (l : List Nat) : List (List Nat) :=
  chunkBlocks (l.length / 16) l

/-- CBC encryption over a block list: each plaintext block is xored with
the previous ciphertext block (initially the IV) and then enciphered. -/
def cbcEncryptBlocks (E : List Nat → List Nat) (iv : List Nat) :
    List (List Nat) → List (List Nat)
  | [] => []
  | b :: bs =>
      let c := E (xorBytes iv b)
      c :: cbcEncryptBlocks E c bs

/-- CBC decryption over a block list: each ciphertext block is deciphered
and xored with the previous ciphertext block (initially the IV). -/
def cbcDecryptBlocks (D : List Nat → List Nat) (iv : List Nat) :
    List (List Nat) → List (List Nat)
  | [] => []
  | c :: cs => xorBytes iv (D c) :: cbcDecryptBlocks D c cs

/-- AES-CBC cipher.encrypt on a flat byte string: pycryptodome raises
ValueError unless the data length is a multiple of the block size. -/
def cbcEncryptFlat (E : List Nat → List Nat) (iv : List Nat) (data : List Nat) :
    Except PyErr (List Nat) :=
  if data.length % 16 ≠ 0 then
    .error (.valueError "Data must be padded to 16 byte boundary in CBC mode")
  else .ok (cbcEncryptBlocks E iv (chunk16 data)).flatten

/-- AES-CBC cipher.decrypt on a flat byte string. -/
def cbcDecryptFlat (D : List Nat → List Nat) (iv : List Nat) (data : List Nat) :
    Except PyErr (List Nat) :=
  if data.length % 16 ≠ 0 then
    .error (.valueError "Data must be padded to 16 byte boundary in CBC mode")
  else .ok (cbcDecryptBlocks D iv (chunk16 data)).flatten

/-- The base64 alphabet character for a 6-bit value. -/
def b64Char (n : Nat) : Char :=
  if n < 26 then Char.ofNat (65 + n)
  else if n < 52 then Char.ofNat (71 + n)
  else if n < 62 then Char.ofNat (n - 4)
  else if n = 62 then Char.ofNat 43
  else Char.ofNat 47

/-- The 6-bit value of a base64 alphabet character, none otherwise. -/
def b64Val (c : Char) : Option Nat :=
  let n := c.toNat
  if 65 ≤ n ∧ n ≤ 90 then some (n - 65)
  else if 97 ≤ n ∧ n ≤ 122 then some (n - 71)
  else if 48 ≤ n ∧ n ≤ 57 then some (n + 4)
  else if n = 43 then some 62
  else if n = 47 then some 63
  else none

/-- base64.b64encode of a byte string, as the character list of the
resulting ASCII string (the source immediately decodes it to str). -/
def b64encodeBytes : List Nat → List Char
  | a :: b :: c :: rest =>
      let w := a * 65536 + b * 256 + c
      b64Char (w / 262144 % 64) :: b64Char (w / 4096 % 64) :: b64Char (w / 64 % 64)
        :: b64Char (w % 64) :: b64encodeBytes rest
  | [a, b] =>
      let w := a * 65536 + b * 256
      [b64Char (w / 262144 % 64), b64Char (w / 4096 % 64), b64Char (w / 64 % 64), Char.ofNat 61]
  | [a] =>
      let w := a * 65536
      [b64Char (w / 262144 % 64), b64Char (w / 4096 % 64), Char.ofNat 61, Char.ofNat 61]
  | [] => []

/-- base64.b64decode of a character string.  Strict on alphabet membership
(Python discards some non-alphabet characters instead; the failure class,
binascii.Error, is a ValueError subclass either way, and on the outputs
of b64encodeBytes the two agree). -/
def b64decodeChars : List Char → Except PyErr (List Nat)
  | [] => .ok []
  | c1 :: c2 :: c3 :: c4 :: rest =>
      if c3 = Char.ofNat 61 ∧ c4 = Char.ofNat 61 ∧ rest = [] then
        match b64Val c1, b64Val c2 with
        | some v1, some v2 => .ok [(v1 * 262144 + v2 * 4096) / 65536]
        | _, _ => .error (.valueError "Invalid base64-encoded string")
      else if c4 = Char.ofNat 61 ∧ rest = [] then
        match b64Val c1, b64Val c2, b64Val c3 with
        | some v1, some v2, some v3 =>
            let w := v1 * 262144 + v2 * 4096 + v3 * 64
            .ok [w / 65536, w / 256 % 256]
        | _, _, _ => .error (.valueError "Invalid base64-encoded string")
      else
        match b64Val c1, b64Val c2, b64Val c3, b64Val c4 with
        | some v1, some v2, some v3, some v4 =>
            let w := v1 * 262144 + v2 * 4096 + v3 * 64 + v4
            match b64decodeChars rest with
            | .ok tail => .ok ([w / 65536, w / 256 % 256, w % 256] ++ tail)
            | .error e => .error e
        | _, _, _, _ => .error (.valueError "Invalid base64-encoded string")
  | _ => .error (.valueError "Invalid base64-encoded string")

/-- str.encode of one Unicode scalar value into its UTF-8 bytes. -/
def utf8EncodeChar (n : Nat) : List Nat :=
  if n < 128 then [n]
  else if n < 2048 then [192 + n / 64, 128 + n % 64]
  else if n < 65536 then [224 + n / 4096, 128 + n / 64 % 64, 128 + n % 64]
  else [240 + n / 262144, 128 + n / 4096 % 64, 128 + n / 64 % 64, 128 + n % 64]

/-- str.encode("utf-8") of a string, as a byte list. -/
def utf8EncodeStr (s : String) : List Nat :=
  (s.data.map fun c => utf8EncodeChar c.toNat).flatten

/-- bytes.decode("utf-8"): the scalar values of a byte string, or none
when the bytes are not valid UTF-8 (Python raises UnicodeDecodeError).
The pending state carries (continuation bytes still expected, accumulated
value, smallest value legal for this sequence length). -/
def utf8DecodeLoop : Option (Nat × Nat × Nat) → List Nat → Option (List Nat)
  | none, [] => some []
  | some _, [] => none
  | none, b :: rest =>
      if b < 128 then (utf8DecodeLoop none rest).map fun l => b :: l
      else if b < 192 then none
      else if b < 224 then utf8DecodeLoop (some (1, b - 192, 128)) rest
      else if b < 240 then utf8DecodeLoop (some (2, b - 224, 2048)) rest
      else if b < 248 then utf8DecodeLoop (some (3, b - 240, 65536)) rest
      else none
  | some (k, acc, lo), b :: rest =>
      if 128 ≤ b ∧ b < 192 then
        let acc2 := acc * 64 + (b - 128)
        if k = 1 then
          if lo ≤ acc2 ∧ acc2 < 1114112 ∧ ¬(55296 ≤ acc2 ∧ acc2 ≤ 57343) then
            (utf8DecodeLoop none rest).map fun l => acc2 :: l
          else none
        else utf8DecodeLoop (some (k - 1, acc2, lo)) rest
      else none

/-- bytes.decode("utf-8") of a byte string into a Lean string. -/
def utf8DecodeStr (bytes : List Nat) : Option String :=
  (utf8DecodeLoop none bytes).map fun cps => String.mk (cps.map Char.ofNat)

/-- Encryption.aes_encrypt_b64 (encryption.py lines 88-108): UTF-8 encode,
pkcs7 pad, AES-CBC encrypt with the instance key and IV, base64 encode.
The block cipher E is AES-128 keyed with the instance common key. -/
def aes_encrypt_b64 (E : List Nat → List Nat) (iv : List Nat) (message : String) :
    Except PyErr (List Char) :=
  match cbcEncryptFlat E iv (pad (utf8EncodeStr message)) with
  | .ok ciphertext => .ok (b64encodeBytes ciphertext)
  | .error e => .error e

/-- Encryption.aes_decrypt_b64 (encryption.py lines 110-131): base64
decode, AES-CBC decrypt with the instance key and IV, pkcs7 unpad, UTF-8
decode.  No handler wraps the ValueError that unpad raises on bad
padding. -/
def aes_decrypt_b64 (D : List Nat → List Nat) (iv : List Nat) (message : List Char) :
    Except PyErr String :=
  match b64decodeChars message with
  | .error e => .error e
  | .ok decoded_message =>
    match cbcDecryptFlat D iv decoded_message with
    | .error e => .error e
    | .ok decrypted =>
      match unpad decrypted with
      | .error e => .error e
      | .ok unpadded =>
        match utf8DecodeStr unpadded with
        | some s => .ok s
        | none => .error (.unicodeDecodeError "utf-8 codec cannot decode")

/-- bytes.hex(): lowercase two-digit hexadecimal rendering of each byte. -/
def hexDigit (n : Nat) : Char :=
  if n < 10 then Char.ofNat (48 + n) else Char.ofNat (87 + n)

/-- bytes.hex() of a byte string, as a character list. -/
def bytesHex : List Nat → List Char
  | [] => []
  | b :: rest => hexDigit (b / 16 % 16) :: hexDigit (b % 16) :: bytesHex rest

/-- Encryption.get_rsa_encrypted_common_key (encryption.py lines 56-86) as
a function of the fetched public key and the RSA-PKCS1v1.5 encryption
primitive for that key.  With no public key it returns None; otherwise it
RSA-encrypts the UTF-8 bytes of hex(key) + ":" + hex(iv) and base64
encodes the ciphertext. -/
def get_rsa_encrypted_common_key (rsaEncrypt : List Nat → List Nat)
    (pubkey_base64 : Option String) (aes_common_key aes_initialization_vector : List Nat) :
    Option (List Char) :=
  match pubkey_base64 with
  | none => none
  | some _ =>
      let aes_key_to_encrypt : List Char :=
        bytesHex aes_common_key ++ [Char.ofNat 58] ++ bytesHex aes_initialization_vector
      some (b64encodeBytes (rsaEncrypt (utf8EncodeStr (String.mk aes_key_to_encrypt))))

/-- The pkcs7 validity test that unpad performs. -/
def validPkcs7 (l : List Nat) : Bool :=
  decide (l.length ≠ 0) && decide (l.length % 16 = 0) &&
  decide (1 ≤ l.getLastD 0) && decide (l.getLastD 0 ≤ 16) &&
  decide (l.drop (l.length - l.getLastD 0) = List.replicate (l.getLastD 0) (l.getLastD 0))

/-- Whether a PyErr value is one of the repository's ApiError classes
(apierror.py: ApiError, EncryptionError, InternalError and the other
subclasses). -/
def isApiErrorClass : PyErr → Bool
  | .apiError _ => true
  | .encryptionError _ => true
  | .internalError _ => true
  | .noFocusedTextFieldError _ => true
  | .appLaunchError _ => true
  | _ => false

/-- Whether a call outcome is a failure with a repository-defined error. -/
def failsWithRepoError (r : Except PyErr String) : Bool :=
  match r with
  | .error e => isApiErrorClass e
  | .ok _ => false

/-! ## Claims about the transport and the error mapper -/

/-- Helper: a successful key lookup makes the containment test true. -/
theorem pyContains_of_dictGet (kvs : List (String × Json)) (key : String) (v : Json)
    (h : dictGet kvs key = some v) : pyContains (.obj kvs) key = .ok true := by
  simp only [pyContains, Except.ok.injEq]
  cases hfind : kvs.find? fun kv => kv.1 = key with
  | none => simp [dictGet, hfind] at h
  | some kv =>
      have hmem := List.mem_of_find?_eq_some hfind
      have hp := List.find?_some hfind
      exact List.any_eq_true.mpr ⟨kv, hmem, hp⟩

/-- Helper: lookups through pyGetKey agree with dictGet. -/
theorem pyGetKey_of_dictGet (kvs : List (String × Json)) (key : String) (v : Json)
    (h : dictGet kvs key = some v) : pyGetKey (.obj kvs) key = .ok v := by
  simp [pyGetKey, h]

/-- C1: for every decoded success response whose result field is an array,
Http.request returns None for an empty array, the single element for a
one-element array, and the full array when there is more than one
element. -/
theorem C1_result_unwrapping (kvs : List (String × Json)) (xs : List Json)
    (hnoerr : (kvs.any fun kv => kv.1 = "error") = false)
    (hres : dictGet kvs "result" = some (.arr xs)) :
    processResponse 200 (some (.obj kvs)) =
      .ok (match xs with
           | [] => none
           | [x] => some x
           | _ => some (.arr xs)) := by
  have hget := pyGetKey_of_dictGet kvs "result" (.arr xs) hres
  have hc : pyContains (.obj kvs) "error" = .ok false := by
    simp only [pyContains, Except.ok.injEq]
    exact hnoerr
  have hcr : pyContains (.obj kvs) "result" = .ok true :=
    pyContains_of_dictGet kvs "result" (.arr xs) hres
  rw [processResponse]
  simp only [if_neg (by omega : ¬ 200 ≠ 200), hc, hcr, hget]
  match xs with
  | [] => rfl
  | [x] => rfl
  | x :: y :: rest => simp [pyGetIdx]

/-- Witness for C1 at a concrete one-element response. -/
theorem C1_result_unwrapping_witness :
    ((([("result", Json.arr [Json.num 1])] : List (String × Json)).any
        fun kv => kv.1 = "error") = false)
    ∧ processResponse 200 (some (.obj [("result", .arr [.num 1])])) = .ok (some (.num 1)) :=
  ⟨by decide, C1_result_unwrapping [("result", .arr [.num 1])] [.num 1] (by decide) rfl⟩

/-- C2: the claim asserts get_error_message is total on every integer
code, mapping unmapped codes such as 9999 to the generic Unknown message.
The code is not: ErrorCode(9999) raises ValueError, and the except clause
only catches TypeError, so get_error_message(9999) raises instead of
returning.  Mapped codes and the absent code behave as the claim says. -/
theorem C2_error_mapper_not_total :
    get_error_message (some 9999) none = .error (.valueError "9999 is not a valid ErrorCode")
    ∧ get_error_message (some 9999) (some "detail")
        = .error (.valueError "9999 is not a valid ErrorCode")
    ∧ get_error_message (some 3) none = .ok "One or more API parameters is invalid"
    ∧ get_error_message none none = .ok "An unexpected error occurred: None"
    ∧ get_error_message none (some "detail") = .ok "An unexpected error occurred: detail" :=
  ⟨rfl, rfl, rfl, rfl, rfl⟩

/-- The ids stamped into successive payloads starting from counter k. -/
theorem runCalls_ids (k : Nat) (calls : List CallSpec) :
    (runCalls k calls).map (fun p => p.id) = List.range' (k + 1) calls.length := by
  induction calls generalizing k with
  | nil => rfl
  | cons c cs ih =>
      simp only [runCalls, httpRequest, List.map_cons, List.length_cons, List.range'_succ]
      exact congrArg _ (ih (k + 1))

/-- C3: over any sequence of N calls to Http.request on one instance, the
id fields placed in the N payloads are exactly 1, 2, ..., N: they start at
1, strictly increase, and are never reused, regardless of whether any
individual call ends in an error (the counter is advanced before the
network exchange and on every path). -/
theorem C3_request_ids_strictly_increasing (calls : List CallSpec) :
    (runCalls 0 calls).map (fun p => p.id) = List.range' 1 calls.length
    ∧ ((runCalls 0 calls).map (fun p => p.id)).Pairwise (· < ·) := by
  refine ⟨runCalls_ids 0 calls, ?_⟩
  rw [runCalls_ids 0 calls]
  exact List.pairwise_lt_range' 1 calls.length

/-- C5: whenever the decoded body has an error field holding a 2-element
[code, message] pair, Http.request raises an HttpError whose error_code is
the integer code and whose message contains the vendor message string. -/
theorem C5_vendor_error (kvs : List (String × Json)) (c : Int) (m : String)
    (herr : dictGet kvs "error" = some (.arr [.num c, .str m])) :
    processResponse 200 (some (.obj kvs)) =
      .error (.httpError (m ++ " (error " ++ toString c ++ ")") (some c))
    ∧ List.IsInfix m.data (m ++ " (error " ++ toString c ++ ")").data := by
  constructor
  · have hc := pyContains_of_dictGet kvs "error" _ herr
    have hget := pyGetKey_of_dictGet kvs "error" _ herr
    rw [processResponse]
    simp only [if_neg (by omega : ¬ 200 ≠ 200), hc, hget]
    rfl
  · exact ⟨[], (" (error " ++ toString c ++ ")").data, by simp⟩

/-- Witness for C5 at the concrete body from the spec. -/
theorem C5_vendor_error_witness :
    processResponse 200 (some (.obj [("error", .arr [.num 3, .str "Illegal Argument"])])) =
      .error (.httpError "Illegal Argument (error 3)" (some 3))
    ∧ List.IsInfix "Illegal Argument".data "Illegal Argument (error 3)".data :=
  C5_vendor_error [("error", .arr [.num 3, .str "Illegal Argument"])] 3 "Illegal Argument" rfl

/-- C6: the claim says an HTTP 200 response with an undecodable body fails
with the malformed-response HttpError.  The code does not: the except
ValueError handler on http.py line 75 reads response.text() but the local
variable response was never assigned (its assignment is the statement that
raised), so the call raises UnboundLocalError, not HttpError. -/
theorem C6_undecodable_body_crashes :
    processResponse 200 none = .error (.unboundLocalError "response")
    ∧ ∀ msg code, processResponse 200 none ≠ .error (.httpError msg code) := by
  refine ⟨rfl, fun msg code h => ?_⟩
  rw [show processResponse 200 none = .error (.unboundLocalError "response") from rfl] at h
  simp at h

/-! ## Claims about the initializer and the text-form facades -/

/-- C7: initialization is a no-op once initialized; with a reported
interface_version v (a nonempty string parsing as a release version ver),
it succeeds and marks the session initialized exactly when
3.0.0 ≤ ver < 4.0.0 under componentwise semantic-version comparison; an
absent version fails with the ApiError raised by the version gate; and at
the concrete versions of the spec, 3.5.0 succeeds while 4.0.0 and 2.9.9
fail with the incompatible-version ApiError. -/
theorem C7_version_gate :
    (∀ r, ensureInitialized true r = .ok true)
    ∧ (∀ kvs v ver, dictGet kvs "interfaceVersion" = some (.str v) → v ≠ "" →
        parseRelease v = some ver →
        (ensureInitialized false (.ok (some (.obj kvs))) = .ok true ↔
          (verCmp ver [3, 0, 0] ≠ .lt ∧ verCmp ver [4, 0, 0] = .lt)))
    ∧ (∀ kvs, dictGet kvs "interfaceVersion" = none →
        ensureInitialized false (.ok (some (.obj kvs))) =
          .error (.apiError
            "Unable to verify API version compatibility because the device did not indicate its API version."))
    ∧ ensureInitialized false (.ok (some (.obj [("interfaceVersion", .str "3.5.0")]))) = .ok true
    ∧ (∃ m, ensureInitialized false (.ok (some (.obj [("interfaceVersion", .str "4.0.0")])))
        = .error (.apiError m))
    ∧ (∃ m, ensureInitialized false (.ok (some (.obj [("interfaceVersion", .str "2.9.9")])))
        = .error (.apiError m)) := by
  refine ⟨fun r => rfl, ?_, ?_, rfl,
    ⟨"The target device is running an incompatible API version \x274.0.0\x27", rfl⟩,
    ⟨"The target device is running an incompatible API version \x272.9.9\x27", rfl⟩⟩
  · intro kvs v ver hget hne hparse
    have h1 : get_interface_information (.ok (some (.obj kvs))) =
        .ok ⟨coalesce_none_or_empty (dictGet kvs "productCategory"),
             coalesce_none_or_empty (dictGet kvs "productName"),
             coalesce_none_or_empty (dictGet kvs "modelName"),
             coalesce_none_or_empty (dictGet kvs "serverName"),
             some (.str v)⟩ := by
      simp [get_interface_information, coalesce_none_or_empty, hget, pyFalsy, hne]
    simp only [ensureInitialized, h1, hparse, Bool.false_eq_true, if_false]
    by_cases hcond : verCmp ver [4, 0, 0] ≠ .lt ∨ verCmp ver [3, 0, 0] = .lt
    · rw [if_pos hcond]
      constructor
      · intro h
        exact absurd h (by simp)
      · rintro ⟨h3, h4⟩
        exfalso
        rcases hcond with h | h
        · exact h h4
        · exact h3 h
    · rw [if_neg hcond]
      push_neg at hcond
      exact ⟨fun h => ⟨hcond.2, hcond.1⟩, fun h => rfl⟩
  · intro kvs hget
    simp only [ensureInitialized, get_interface_information, Bool.false_eq_true, if_false,
      coalesce_none_or_empty, hget]

/-- Witness for C7: the concrete interface-information responses of the
spec discharge the hypotheses of the quantified conjuncts. -/
theorem C7_version_gate_witness :
    ensureInitialized false (.ok (some (.obj [("interfaceVersion", Json.str "3.5.0")]))) = .ok true
    ∧ ensureInitialized true (.error (.valueError "network down")) = .ok true :=
  ⟨((C7_version_gate.2.1 [("interfaceVersion", .str "3.5.0")] "3.5.0" [3, 5, 0]
      rfl (by decide) rfl).mpr (by decide)),
   C7_version_gate.1 (.error (.valueError "network down"))⟩

/-- C10: the two encrypted text-field operations map vendor code 7
(ILLEGAL_STATE) differently: get_text_form returns None while
set_text_form raises NoFocusedTextFieldError; get_text_form also returns
None for vendor code 40003 (REQUEST_DUPLICATED). -/
theorem C10_text_form_error_asymmetry :
    (∀ k d m, get_text_form (some k) (.error (.httpError m (some 7))) d = .ok none)
    ∧ (∀ t k m, set_text_form t (some k) (.error (.httpError m (some 7))) =
        .error (.noFocusedTextFieldError
          "The target device does not currently have a writable text field focused."))
    ∧ (∀ k d m, get_text_form (some k) (.error (.httpError m (some 40003))) d = .ok none) := by
  refine ⟨fun k d m => ?_, fun t k m => ?_, fun k d m => ?_⟩
  · simp [get_text_form]
  · simp [set_text_form]
  · simp [get_text_form]

/-! ## Round-trip lemmas for the encoding layers -/

/-- The base64 alphabet decodes back to the 6-bit value (all 64 cases). -/
theorem b64Val_b64Char_fin : ∀ n : Fin 64, b64Val (b64Char n.1) = some n.1 := by decide

/-- b64Val inverts b64Char below 64. -/
theorem b64Val_b64Char {n : Nat} (h : n < 64) : b64Val (b64Char n) = some n :=
  b64Val_b64Char_fin ⟨n, h⟩

/-- No alphabet character is the padding character. -/
theorem b64Char_ne_pad_fin : ∀ n : Fin 64, ¬(b64Char n.1 = Char.ofNat 61) := by decide

/-- b64Char never returns the padding character. -/
theorem b64Char_ne_pad {n : Nat} (h : n < 64) : b64Char n ≠ Char.ofNat 61 :=
  b64Char_ne_pad_fin ⟨n, h⟩

/-- base64 decoding inverts base64 encoding on byte strings. -/
theorem b64_roundtrip : ∀ bs : List Nat, (∀ x ∈ bs, x < 256) →
    b64decodeChars (b64encodeBytes bs) = .ok bs
  | [], _ => rfl
  | [a], h => by
      have ha : a < 256 := h a (by simp)
      simp only [b64encodeBytes]
      rw [b64decodeChars]
      rw [if_pos ⟨rfl, rfl, rfl⟩]
      rw [b64Val_b64Char (by omega), b64Val_b64Char (by omega)]
      simp only [Except.ok.injEq, List.cons.injEq, and_true]
      omega
  | [a, b], h => by
      have ha : a < 256 := h a (by simp)
      have hb : b < 256 := h b (by simp)
      simp only [b64encodeBytes]
      rw [b64decodeChars]
      rw [if_neg fun hx => b64Char_ne_pad (n := (a * 65536 + b * 256) / 64 % 64) (by omega) hx.1]
      rw [if_pos ⟨rfl, rfl⟩]
      rw [b64Val_b64Char (by omega), b64Val_b64Char (by omega), b64Val_b64Char (by omega)]
      simp only [Except.ok.injEq, List.cons.injEq, and_true]
      constructor
      · omega
      · omega
  | a :: b :: c :: d :: rest, h => by
      have ha : a < 256 := h a (by simp)
      have hb : b < 256 := h b (by simp)
      have hc : c < 256 := h c (by simp)
      have ih := b64_roundtrip (d :: rest) fun x hx => h x (by simp at hx ⊢; tauto)
      simp only [b64encodeBytes]
      rw [b64decodeChars]
      rw [if_neg fun hx =>
        b64Char_ne_pad (n := (a * 65536 + b * 256 + c) / 64 % 64) (by omega) hx.1]
      rw [if_neg fun hx => b64Char_ne_pad (n := (a * 65536 + b * 256 + c) % 64) (by omega) hx.1]
      rw [b64Val_b64Char (by omega), b64Val_b64Char (by omega), b64Val_b64Char (by omega),
        b64Val_b64Char (by omega)]
      rw [ih]
      simp only [Except.ok.injEq, List.cons_append, List.nil_append, List.cons.injEq, and_true]
      refine ⟨by omega, by omega, by omega⟩
  | [a, b, c], h => by
      have ha : a < 256 := h a (by simp)
      have hb : b < 256 := h b (by simp)
      have hc : c < 256 := h c (by simp)
      simp only [b64encodeBytes]
      rw [b64decodeChars]
      rw [if_neg fun hx =>
        b64Char_ne_pad (n := (a * 65536 + b * 256 + c) / 64 % 64) (by omega) hx.1]
      rw [if_neg fun hx => b64Char_ne_pad (n := (a * 65536 + b * 256 + c) % 64) (by omega) hx.1]
      rw [b64Val_b64Char (by omega), b64Val_b64Char (by omega), b64Val_b64Char (by omega),
        b64Val_b64Char (by omega)]
      rw [show b64decodeChars [] = .ok [] from rfl]
      simp only [Except.ok.injEq, List.append_nil, List.cons.injEq, and_true]
      refine ⟨by omega, by omega, by omega⟩

/-- Xoring twice with the same byte string is the identity. -/
theorem xorBytes_xorBytes (a : List Nat) : ∀ b : List Nat, a.length = b.length →
    xorBytes a (xorBytes a b) = b := by
  induction a with
  | nil =>
      intro b h
      cases b with
      | nil => rfl
      | cons y ys => simp at h
  | cons x xs ih =>
      intro b h
      cases b with
      | nil => simp at h
      | cons y ys =>
          have hlen : xs.length = ys.length := by simpa using h
          simp only [xorBytes, List.zipWith_cons_cons, List.cons.injEq]
          exact ⟨Nat.xor_cancel_left x y, ih ys hlen⟩

/-- Length of a bytewise xor. -/
theorem xorBytes_length (a b : List Nat) : (xorBytes a b).length = min a.length b.length := by
  simp [xorBytes]

/-- Byte bound of a bytewise xor. -/
theorem xorBytes_lt (a b : List Nat) (ha : ∀ x ∈ a, x < 256) (hb : ∀ x ∈ b, x < 256) :
    ∀ x ∈ xorBytes a b, x < 256 := by
  induction a generalizing b with
  | nil => simp [xorBytes]
  | cons x xs ih =>
      cases b with
      | nil => simp [xorBytes]
      | cons y ys =>
          intro z hz
          simp only [xorBytes, List.zipWith_cons_cons, List.mem_cons] at hz
          rcases hz with rfl | hz
          · have h256 : (256 : Nat) = 2 ^ 8 := by norm_num
            rw [h256]
            exact Nat.xor_lt_two_pow (by rw [← h256]; exact ha x (by simp))
              (by rw [← h256]; exact hb y (by simp))
          · exact ih ys (fun u hu => ha u (by simp [hu])) (fun u hu => hb u (by simp [hu])) z hz

/-- Flattening the blocks of an aligned byte string gives it back, and
each block is a 16-byte block of its bytes. -/
theorem chunkBlocks_spec : ∀ (k : Nat) (l : List Nat), l.length = 16 * k →
    (chunkBlocks k l).flatten = l
    ∧ ∀ b ∈ chunkBlocks k l, b.length = 16 ∧ ∀ x ∈ b, x ∈ l := by
  intro k
  induction k with
  | zero =>
      intro l h
      have : l = [] := List.eq_nil_of_length_eq_zero (by omega)
      subst this
      exact ⟨rfl, by simp [chunkBlocks]⟩
  | succ k ih =>
      intro l h
      have hlen : l.length = 16 * k + 16 := by omega
      have hdrop : (l.drop 16).length = 16 * k := by simp; omega
      obtain ⟨hflat, hblocks⟩ := ih (l.drop 16) hdrop
      constructor
      · simp only [chunkBlocks, List.flatten_cons, hflat]
        exact List.take_append_drop 16 l
      · intro b hb
        simp only [chunkBlocks, List.mem_cons] at hb
        rcases hb with rfl | hb
        · refine ⟨by simp; omega, fun x hx => List.mem_of_mem_take hx⟩
        · obtain ⟨hb1, hb2⟩ := hblocks b hb
          exact ⟨hb1, fun x hx => List.mem_of_mem_drop (hb2 x hx)⟩

/-- Chunking the flattening of a list of 16-byte blocks gives it back. -/
theorem chunk16_flatten_blocks : ∀ bl : List (List Nat), (∀ b ∈ bl, b.length = 16) →
    chunk16 bl.flatten = bl := by
  have aux : ∀ bl : List (List Nat), (∀ b ∈ bl, b.length = 16) →
      chunkBlocks bl.length bl.flatten = bl := by
    intro bl
    induction bl with
    | nil => intro _; rfl
    | cons b bs ih =>
        intro h
        have hb : b.length = 16 := h b (by simp)
        simp only [List.length_cons, List.flatten_cons, chunkBlocks]
        rw [List.take_left' hb, List.drop_left' hb]
        rw [ih fun x hx => h x (by simp [hx])]
  intro bl h
  have hlen : bl.flatten.length = 16 * bl.length := by
    rw [List.length_flatten]
    induction bl with
    | nil => rfl
    | cons b bs ih =>
        simp only [List.map_cons, List.sum_cons, h b (by simp),
          ih fun x hx => h x (by simp [hx]), List.length_cons]
        omega
  rw [chunk16, hlen]
  rw [show 16 * bl.length / 16 = bl.length by omega]
  exact aux bl h

/-- The flattening of a list of 16-byte blocks is 16-byte aligned. -/
theorem flatten_blocks_length : ∀ bl : List (List Nat), (∀ b ∈ bl, b.length = 16) →
    bl.flatten.length = 16 * bl.length := by
  intro bl h
  rw [List.length_flatten]
  induction bl with
  | nil => rfl
  | cons b bs ih =>
      simp only [List.map_cons, List.sum_cons, h b (by simp),
        ih fun x hx => h x (by simp [hx]), List.length_cons]
      omega

/-- CBC encryption preserves the block shape invariant. -/
theorem cbcEncryptBlocks_props (E : List Nat → List Nat)
    (hE : ∀ b, b.length = 16 → (∀ x ∈ b, x < 256) → (E b).length = 16 ∧ ∀ x ∈ E b, x < 256) :
    ∀ (bl : List (List Nat)) (iv : List Nat), iv.length = 16 → (∀ x ∈ iv, x < 256) →
    (∀ b ∈ bl, b.length = 16 ∧ ∀ x ∈ b, x < 256) →
    ∀ cb ∈ cbcEncryptBlocks E iv bl, cb.length = 16 ∧ ∀ x ∈ cb, x < 256 := by
  intro bl
  induction bl with
  | nil => simp [cbcEncryptBlocks]
  | cons b bs ih =>
      intro iv hivlen hivlt hbl cb hcb
      obtain ⟨hblen, hblt⟩ := hbl b (by simp)
      have hxlen : (xorBytes iv b).length = 16 := by rw [xorBytes_length]; omega
      have hxlt := xorBytes_lt iv b hivlt hblt
      obtain ⟨hclen, hclt⟩ := hE (xorBytes iv b) hxlen hxlt
      simp only [cbcEncryptBlocks, List.mem_cons] at hcb
      rcases hcb with rfl | hcb
      · exact ⟨hclen, hclt⟩
      · exact ih (E (xorBytes iv b)) hclen hclt (fun x hx => hbl x (by simp [hx])) cb hcb

/-- CBC decryption inverts CBC encryption when the block primitive does. -/
theorem cbc_roundtrip (E D : List Nat → List Nat)
    (hE : ∀ b, b.length = 16 → (∀ x ∈ b, x < 256) → (E b).length = 16 ∧ ∀ x ∈ E b, x < 256)
    (hD : ∀ b, b.length = 16 → (∀ x ∈ b, x < 256) → D (E b) = b) :
    ∀ (bl : List (List Nat)) (iv : List Nat), iv.length = 16 → (∀ x ∈ iv, x < 256) →
    (∀ b ∈ bl, b.length = 16 ∧ ∀ x ∈ b, x < 256) →
    cbcDecryptBlocks D iv (cbcEncryptBlocks E iv bl) = bl := by
  intro bl
  induction bl with
  | nil => intro iv _ _ _; rfl
  | cons b bs ih =>
      intro iv hivlen hivlt hbl
      obtain ⟨hblen, hblt⟩ := hbl b (by simp)
      have hxlen : (xorBytes iv b).length = 16 := by rw [xorBytes_length]; omega
      have hxlt := xorBytes_lt iv b hivlt hblt
      obtain ⟨hclen, hclt⟩ := hE (xorBytes iv b) hxlen hxlt
      simp only [cbcEncryptBlocks, cbcDecryptBlocks, List.cons.injEq]
      constructor
      · rw [hD (xorBytes iv b) hxlen hxlt]
        exact xorBytes_xorBytes iv b (by omega)
      · exact ih (E (xorBytes iv b)) hclen hclt fun x hx => hbl x (by simp [hx])

/-- The padded length is a multiple of the block size. -/
theorem pad_length_mod (l : List Nat) : (pad l).length % 16 = 0 := by
  simp only [pad, List.length_append, List.length_replicate]
  omega

/-- Padding keeps all bytes below 256 (the pad byte is at most 16). -/
theorem pad_lt (l : List Nat) (h : ∀ x ∈ l, x < 256) : ∀ x ∈ pad l, x < 256 := by
  intro x hx
  simp only [pad, List.mem_append, List.mem_replicate] at hx
  rcases hx with hx | ⟨_, rfl⟩
  · exact h x hx
  · omega

/-- unpad inverts pad. -/
theorem unpad_pad (l : List Nat) : unpad (pad l) = .ok l := by
  have hmodlt : l.length % 16 < 16 := Nat.mod_lt _ (by omega)
  set k := 16 - l.length % 16 with hk
  have hk1 : 1 ≤ k := by omega
  have hk16 : k ≤ 16 := by omega
  have hpad : pad l = l ++ List.replicate k k := rfl
  have hlen : (pad l).length = l.length + k := by
    rw [hpad]; simp
  have hlast : (pad l).getLastD 0 = k := by
    rw [hpad, List.getLastD_eq_getLast?, List.getLast?_append, List.getLast?_replicate]
    rw [if_neg (by omega : ¬ k = 0)]
    rfl
  have hdrop : (pad l).drop ((pad l).length - k) = List.replicate k k := by
    rw [hlen, hpad]
    rw [show l.length + k - k = l.length by omega]
    exact List.drop_left l (List.replicate k k)
  have htake : (pad l).take ((pad l).length - k) = l := by
    rw [hlen, hpad]
    rw [show l.length + k - k = l.length by omega]
    exact List.take_left l (List.replicate k k)
  rw [unpad]
  rw [if_neg (by omega : ¬ (pad l).length = 0)]
  rw [if_neg (by simpa using pad_length_mod l)]
  rw [hlast]
  rw [if_neg (by omega : ¬ (k < 1 ∨ k > 16))]
  rw [if_neg (by rw [hdrop]; exact fun hc => hc rfl)]
  rw [htake]

/-- Decoding consumes one encoded scalar value and continues. -/
theorem utf8DecodeLoop_encodeChar (n : Nat) (rest : List Nat)
    (hval : n < 55296 ∨ (57343 < n ∧ n < 1114112)) :
    utf8DecodeLoop none (utf8EncodeChar n ++ rest) =
      (utf8DecodeLoop none rest).map fun l => n :: l := by
  have hn : n < 1114112 := by omega
  by_cases h1 : n < 128
  · simp only [utf8EncodeChar, if_pos h1, List.cons_append, List.nil_append]
    rw [utf8DecodeLoop, if_pos h1]
  · by_cases h2 : n < 2048
    · simp only [utf8EncodeChar, if_neg h1, if_pos h2, List.cons_append, List.nil_append]
      rw [utf8DecodeLoop]
      rw [if_neg (by omega), if_neg (by omega), if_pos (by omega)]
      rw [utf8DecodeLoop]
      rw [if_pos (by omega : 128 ≤ 128 + n % 64 ∧ 128 + n % 64 < 192)]
      simp only [if_pos rfl]
      rw [show (192 + n / 64 - 192) * 64 + (128 + n % 64 - 128) = n from by omega]
      rw [if_pos (by omega : 128 ≤ n ∧ n < 1114112 ∧ ¬(55296 ≤ n ∧ n ≤ 57343))]
      rw [if_pos trivial]
    · by_cases h3 : n < 65536
      · simp only [utf8EncodeChar, if_neg h1, if_neg h2, if_pos h3, List.cons_append,
          List.nil_append]
        rw [utf8DecodeLoop]
        rw [if_neg (by omega), if_neg (by omega), if_neg (by omega), if_pos (by omega)]
        rw [utf8DecodeLoop]
        rw [if_pos (by omega : 128 ≤ 128 + n / 64 % 64 ∧ 128 + n / 64 % 64 < 192)]
        simp only [if_neg (by omega : ¬ (2 : Nat) = 1)]
        rw [utf8DecodeLoop]
        rw [if_pos (by omega : 128 ≤ 128 + n % 64 ∧ 128 + n % 64 < 192)]
        simp only [if_pos rfl]
        rw [show ((224 + n / 4096 - 224) * 64 + (128 + n / 64 % 64 - 128)) * 64 +
          (128 + n % 64 - 128) = n from by omega]
        rw [if_pos (by omega : 2048 ≤ n ∧ n < 1114112 ∧ ¬(55296 ≤ n ∧ n ≤ 57343))]
        rw [if_pos trivial]
      · simp only [utf8EncodeChar, if_neg h1, if_neg h2, if_neg h3, List.cons_append,
          List.nil_append]
        rw [utf8DecodeLoop]
        rw [if_neg (by omega), if_neg (by omega), if_neg (by omega), if_neg (by omega),
          if_pos (by omega)]
        rw [utf8DecodeLoop]
        rw [if_pos (by omega : 128 ≤ 128 + n / 4096 % 64 ∧ 128 + n / 4096 % 64 < 192)]
        simp only [if_neg (by omega : ¬ (3 : Nat) = 1)]
        rw [utf8DecodeLoop]
        rw [if_pos (by omega : 128 ≤ 128 + n / 64 % 64 ∧ 128 + n / 64 % 64 < 192)]
        simp only [if_neg (by omega : ¬ (3 - 1 : Nat) = 1)]
        rw [utf8DecodeLoop]
        rw [if_pos (by omega : 128 ≤ 128 + n % 64 ∧ 128 + n % 64 < 192)]
        simp only [if_pos rfl]
        rw [show (((240 + n / 262144 - 240) * 64 + (128 + n / 4096 % 64 - 128)) * 64 +
          (128 + n / 64 % 64 - 128)) * 64 + (128 + n % 64 - 128) = n from by omega]
        rw [if_pos (by omega : 65536 ≤ n ∧ n < 1114112 ∧ ¬(55296 ≤ n ∧ n ≤ 57343))]
        rw [if_pos trivial]

/-- UTF-8 decoding inverts UTF-8 encoding on strings. -/
theorem utf8_roundtrip_chars : ∀ cs : List Char,
    utf8DecodeLoop none ((cs.map fun c => utf8EncodeChar c.toNat).flatten) =
      some (cs.map Char.toNat) := by
  intro cs
  induction cs with
  | nil => rfl
  | cons c cs ih =>
      have hval : c.toNat < 55296 ∨ (57343 < c.toNat ∧ c.toNat < 1114112) := by
        have h := c.valid
        simp only [UInt32.isValidChar, Nat.isValidChar] at h
        exact h
      simp only [List.map_cons, List.flatten_cons]
      rw [utf8DecodeLoop_encodeChar c.toNat _ hval, ih]
      rfl

/-- All bytes produced by the UTF-8 encoder are below 256. -/
theorem utf8EncodeChar_lt (n : Nat) (h : n < 1114112) : ∀ x ∈ utf8EncodeChar n, x < 256 := by
  intro x hx
  by_cases h1 : n < 128
  · simp only [utf8EncodeChar, if_pos h1, List.mem_singleton] at hx
    omega
  · by_cases h2 : n < 2048
    · simp only [utf8EncodeChar, if_neg h1, if_pos h2, List.mem_cons, List.not_mem_nil,
        or_false] at hx
      rcases hx with rfl | rfl <;> omega
    · by_cases h3 : n < 65536
      · simp only [utf8EncodeChar, if_neg h1, if_neg h2, if_pos h3, List.mem_cons,
          List.not_mem_nil, or_false] at hx
        rcases hx with rfl | rfl | rfl <;> omega
      · simp only [utf8EncodeChar, if_neg h1, if_neg h2, if_neg h3, List.mem_cons,
          List.not_mem_nil, or_false] at hx
        rcases hx with rfl | rfl | rfl | rfl <;> omega

/-- All bytes of a UTF-8 encoded string are below 256. -/
theorem utf8EncodeStr_lt (s : String) : ∀ x ∈ utf8EncodeStr s, x < 256 := by
  intro x hx
  simp only [utf8EncodeStr, List.mem_flatten, List.mem_map] at hx
  obtain ⟨l, ⟨c, _, rfl⟩, hxl⟩ := hx
  have h := c.valid
  simp only [UInt32.isValidChar, Nat.isValidChar] at h
  have hcn : c.toNat = c.val.toNat := rfl
  exact utf8EncodeChar_lt c.toNat (by omega) x hxl

/-- utf8DecodeStr inverts utf8EncodeStr. -/
theorem utf8DecodeStr_encodeStr (s : String) : utf8DecodeStr (utf8EncodeStr s) = some s := by
  obtain ⟨d⟩ := s
  have h1 : utf8DecodeLoop none (utf8EncodeStr ⟨d⟩) = some (d.map Char.toNat) :=
    utf8_roundtrip_chars d
  simp [utf8DecodeStr, h1, List.map_map, Function.comp_def]

/-! ## Claims about the encryption channel -/

/-- C4: for every string s and every Encryption instance (fixed 16-byte
AES key and IV), decrypting the encryption of s gives back s.  The AES-128
block maps for the fixed key are parameters E (encrypt) and D (decrypt);
the hypotheses state exactly that D inverts E on 16-byte blocks and that E
maps bytes to bytes, which AES satisfies. -/
theorem C4_encrypt_decrypt_roundtrip (E D : List Nat → List Nat) (iv : List Nat)
    (hivlen : iv.length = 16) (hivlt : ∀ x ∈ iv, x < 256)
    (hE : ∀ b, b.length = 16 → (∀ x ∈ b, x < 256) → (E b).length = 16 ∧ ∀ x ∈ E b, x < 256)
    (hD : ∀ b, b.length = 16 → (∀ x ∈ b, x < 256) → D (E b) = b)
    (s : String) :
    ∃ ct, aes_encrypt_b64 E iv s = .ok ct ∧ aes_decrypt_b64 D iv ct = .ok s := by
  have hplt : ∀ x ∈ utf8EncodeStr s, x < 256 := utf8EncodeStr_lt s
  have hpadmod : (pad (utf8EncodeStr s)).length % 16 = 0 := pad_length_mod (utf8EncodeStr s)
  have hpadlt : ∀ x ∈ pad (utf8EncodeStr s), x < 256 := pad_lt (utf8EncodeStr s) hplt
  have hlenk : (pad (utf8EncodeStr s)).length =
      16 * ((pad (utf8EncodeStr s)).length / 16) := by omega
  obtain ⟨hflat, hblocks⟩ :=
    chunkBlocks_spec ((pad (utf8EncodeStr s)).length / 16) (pad (utf8EncodeStr s)) hlenk
  have hblocks' : ∀ b ∈ chunk16 (pad (utf8EncodeStr s)),
      b.length = 16 ∧ ∀ x ∈ b, x < 256 := by
    intro b hb
    obtain ⟨h1, h2⟩ := hblocks b hb
    exact ⟨h1, fun x hx => hpadlt x (h2 x hx)⟩
  have hct_props :=
    cbcEncryptBlocks_props E hE (chunk16 (pad (utf8EncodeStr s))) iv hivlen hivlt hblocks'
  have hctlen_each :
      ∀ cb ∈ cbcEncryptBlocks E iv (chunk16 (pad (utf8EncodeStr s))), cb.length = 16 :=
    fun cb h => (hct_props cb h).1
  have hctlt :
      ∀ x ∈ (cbcEncryptBlocks E iv (chunk16 (pad (utf8EncodeStr s)))).flatten, x < 256 := by
    intro x hx
    simp only [List.mem_flatten] at hx
    obtain ⟨cb, hcb, hxcb⟩ := hx
    exact (hct_props cb hcb).2 x hxcb
  have hctflatlen :
      (cbcEncryptBlocks E iv (chunk16 (pad (utf8EncodeStr s)))).flatten.length =
        16 * (cbcEncryptBlocks E iv (chunk16 (pad (utf8EncodeStr s)))).length :=
    flatten_blocks_length _ hctlen_each
  have henc : aes_encrypt_b64 E iv s =
      .ok (b64encodeBytes (cbcEncryptBlocks E iv (chunk16 (pad (utf8EncodeStr s)))).flatten) := by
    rw [aes_encrypt_b64, cbcEncryptFlat]
    rw [if_neg (by simpa using hpadmod)]
  refine ⟨_, henc, ?_⟩
  have hb64 := b64_roundtrip
    (cbcEncryptBlocks E iv (chunk16 (pad (utf8EncodeStr s)))).flatten hctlt
  have hcbc : cbcDecryptFlat D iv
      (cbcEncryptBlocks E iv (chunk16 (pad (utf8EncodeStr s)))).flatten =
      .ok (pad (utf8EncodeStr s)) := by
    rw [cbcDecryptFlat]
    rw [if_neg (by omega :
      ¬ (cbcEncryptBlocks E iv (chunk16 (pad (utf8EncodeStr s)))).flatten.length % 16 ≠ 0)]
    rw [chunk16_flatten_blocks _ hctlen_each]
    rw [show cbcDecryptBlocks D iv (cbcEncryptBlocks E iv (chunk16 (pad (utf8EncodeStr s)))) =
        chunk16 (pad (utf8EncodeStr s)) from
      cbc_roundtrip E D hE hD _ iv hivlen hivlt hblocks']
    rw [show (chunk16 (pad (utf8EncodeStr s))).flatten = pad (utf8EncodeStr s) from hflat]
  simp only [aes_decrypt_b64, hb64, hcbc, unpad_pad (utf8EncodeStr s),
    utf8DecodeStr_encodeStr s]

/-- Witness for C4 with the identity block cipher on the string "ab". -/
theorem C4_encrypt_decrypt_roundtrip_witness :
    ∃ ct, aes_encrypt_b64 (fun b => b) (List.replicate 16 0) "ab" = .ok ct
      ∧ aes_decrypt_b64 (fun b => b) (List.replicate 16 0) ct = .ok "ab" :=
  C4_encrypt_decrypt_roundtrip (fun b => b) (fun b => b) (List.replicate 16 0)
    (by decide) (by decide) (fun b h1 h2 => ⟨h1, h2⟩) (fun b _ _ => rfl) "ab"

/-- Hex digits are ASCII (all 16 cases). -/
theorem hexDigit_lt_fin : ∀ n : Fin 16, (hexDigit n.1).toNat < 128 := by decide

/-- Every character of bytes.hex() is ASCII. -/
theorem bytesHex_ascii : ∀ bs : List Nat, ∀ c ∈ bytesHex bs, c.toNat < 128 := by
  intro bs
  induction bs with
  | nil => simp [bytesHex]
  | cons b rest ih =>
      intro c hc
      simp only [bytesHex, List.mem_cons] at hc
      rcases hc with rfl | hc
      · exact hexDigit_lt_fin ⟨b / 16 % 16, Nat.mod_lt _ (by omega)⟩
      rcases hc with rfl | hc
      · exact hexDigit_lt_fin ⟨b % 16, Nat.mod_lt _ (by omega)⟩
      · exact ih c hc

/-- On ASCII character lists, UTF-8 encoding is the bytewise identity. -/
theorem utf8EncodeStr_ascii : ∀ cs : List Char, (∀ c ∈ cs, c.toNat < 128) →
    utf8EncodeStr (String.mk cs) = cs.map Char.toNat := by
  intro cs
  induction cs with
  | nil => intro _; rfl
  | cons c rest ih =>
      intro h
      have hc : c.toNat < 128 := h c (by simp)
      have htail : utf8EncodeStr (String.mk rest) = rest.map Char.toNat :=
        ih fun x hx => h x (by simp [hx])
      show (utf8EncodeChar c.toNat ++ ((rest.map fun x => utf8EncodeChar x.toNat).flatten)) =
        c.toNat :: rest.map Char.toNat
      rw [show utf8EncodeChar c.toNat = [c.toNat] by
        simp [utf8EncodeChar, if_pos hc]]
      rw [show ((rest.map fun x => utf8EncodeChar x.toNat).flatten) = rest.map Char.toNat
        from htail]
      rfl

/-- C8: with a device public key available, the wrapped session key is the
base64 of the RSA encryption of exactly the bytes
hex(aes_key) ++ ":" ++ hex(aes_iv) (the hex of the key, one colon byte 58,
the hex of the IV, nothing else); with no public key it is None. -/
theorem C8_session_key_wrap (rsaEncrypt : List Nat → List Nat) (pk : String)
    (key iv : List Nat) :
    get_rsa_encrypted_common_key rsaEncrypt none key iv = none
    ∧ get_rsa_encrypted_common_key rsaEncrypt (some pk) key iv =
        some (b64encodeBytes (rsaEncrypt
          ((bytesHex key).map Char.toNat ++ 58 :: (bytesHex iv).map Char.toNat))) := by
  refine ⟨rfl, ?_⟩
  simp only [get_rsa_encrypted_common_key]
  congr 3
  rw [utf8EncodeStr_ascii]
  · simp only [List.map_append, List.map_cons, List.map_nil]
    rw [show (Char.ofNat 58).toNat = 58 from by decide]
    simp
  · intro c hc
    simp only [List.append_assoc, List.mem_append, List.mem_singleton] at hc
    rcases hc with hc | hc | hc
    · exact bytesHex_ascii key c hc
    · rw [hc]; decide
    · exact bytesHex_ascii iv c hc

/-- unpad raises ValueError on every input failing the pkcs7 test. -/
theorem unpad_of_invalid (l : List Nat) (h : validPkcs7 l = false) :
    ∃ m, unpad l = .error (.valueError m) := by
  simp only [unpad]
  split_ifs with h1 h2 h3 h4
  · exact ⟨_, rfl⟩
  · exact ⟨_, rfl⟩
  · exact ⟨_, rfl⟩
  · exact ⟨_, rfl⟩
  · exfalso
    have hv : validPkcs7 l = true := by
      simp only [validPkcs7, Bool.and_eq_true, decide_eq_true_eq]
      refine ⟨⟨⟨⟨h1, by omega⟩, by omega⟩, by omega⟩, ?_⟩
      by_contra hc
      exact h4 hc
    rw [hv] at h
    exact absurd h (by decide)

/-- C9 (amended): when the base64-decoded ciphertext is block-aligned and
the AES-CBC-decrypted bytes do not end in valid PKCS7 padding,
aes_decrypt_b64 fails — but with the ValueError that
Crypto.Util.Padding.unpad raises, which the source does not wrap; the
repository defines no DecryptionError class. -/
theorem C9_bad_padding_raises (D : List Nat → List Nat) (iv : List Nat)
    (input : List Char) (data : List Nat)
    (hdec : b64decodeChars input = .ok data)
    (hlen : data.length % 16 = 0)
    (hbad : validPkcs7 ((cbcDecryptBlocks D iv (chunk16 data)).flatten) = false) :
    ∃ m, aes_decrypt_b64 D iv input = .error (.valueError m) := by
  obtain ⟨m, hm⟩ := unpad_of_invalid _ hbad
  refine ⟨m, ?_⟩
  simp only [aes_decrypt_b64, hdec, cbcDecryptFlat,
    if_neg (by omega : ¬ data.length % 16 ≠ 0), hm]

/-- Witness for C9 (amended) at a concrete ciphertext whose decryption
ends in byte 0, which is never a legal pkcs7 pad byte. -/
theorem C9_bad_padding_raises_witness :
    ∃ m, aes_decrypt_b64 (fun b => b) (List.replicate 16 0)
      (b64encodeBytes (List.replicate 16 0)) = .error (.valueError m) :=
  C9_bad_padding_raises (fun b => b) (List.replicate 16 0)
    (b64encodeBytes (List.replicate 16 0)) (List.replicate 16 0) rfl rfl rfl

/-- C9 counterexample to the claim as stated: at this concrete input the
failure is the library ValueError "Padding is incorrect.", not a
repository-defined error class (DecryptionError does not exist; the
closest class, EncryptionError, is not raised). -/
theorem C9_claim_counterexample :
    aes_decrypt_b64 (fun b => b) (List.replicate 16 0) (b64encodeBytes (List.replicate 16 0)) =
      .error (.valueError "Padding is incorrect.")
    ∧ failsWithRepoError (aes_decrypt_b64 (fun b => b) (List.replicate 16 0)
        (b64encodeBytes (List.replicate 16 0))) = false :=
  ⟨rfl, rfl⟩
